import Mathlib

/-!
Verification of `src/chemprop/atom_plot/molecule_drawer.py`.

The module holds one class, `MoleculeDrawer`, with two static methods:
`_get_similarity_map_from_weights` (the field renderer) and
`draw_molecule_with_atom_notes` (the annotated-molecule renderer).  We give a
shallow embedding: the RDKit molecule is a record of heavy atoms, bonds and an
optional 2D conformer; the drawing canvas is an event trace together with the
draw options the code sets; numeric values are exact rationals.  External
collaborators (the SMILES parser, the 2D coordinate generator, the Euclidean
length routine of RDKit geometry, the matplotlib named-colormap registry) are
supplied as a record of functions and quantified over in the theorems.
-/

/-- Two-dimensional point: an RDKit conformer atom position (`GetAtomPosition`)
with the z coordinate ignored, as the drawing code only reads `x` and `y`. -/
structure Point where
  x : ℚ
  y : ℚ
deriving DecidableEq, Repr

/-- A bond, keeping the two endpoint atom indices the code reads via
`GetBeginAtomIdx` and `GetEndAtomIdx`. -/
structure Bond where
  beginAtomIdx : Nat
  endAtomIdx : Nat
deriving DecidableEq, Repr

/-- An atom: element symbol plus the display properties the annotation loop
sets through `SetProp` (`atomNote`, `atomLabel`). -/
structure Atom where
  symbol : String
  atomNote : Option String := none
  atomLabel : Option String := none
deriving DecidableEq, Repr

/-- An RDKit molecule as the drawer uses it: heavy atoms in index order (a
molecule parsed from SMILES stores only heavy atoms, so `GetNumAtoms` and
`GetNumHeavyAtoms` agree on it), bonds, and an optional single 2D conformer
holding one position per atom. -/
structure Mol where
  atoms : List Atom
  bonds : List Bond
  conformer : Option (List Point) := none
deriving DecidableEq, Repr

/-- `mol.GetNumAtoms()`. -/
def Mol.numAtoms (m : Mol) : Nat := m.atoms.length

/-- `mol.GetNumHeavyAtoms()`; equal to `numAtoms` for molecules parsed from
SMILES without explicit hydrogens, which is the only way this code builds
molecules. -/
def Mol.numHeavyAtoms (m : Mol) : Nat := m.atoms.length

/-- `mol.GetNumBonds()`. -/
def Mol.numBonds (m : Mol) : Nat := m.bonds.length

/-- `mol.GetConformer().GetAtomPosition(i)`.  Total with a default so the
embedding is executable; every call site in the code first ensures a conformer
exists and indexes with an atom index of the molecule. -/
def Mol.getAtomPosition (m : Mol) (i : Nat) : Point :=
  (m.conformer.getD []).getD i ⟨0, 0⟩

/-- A colour as matplotlib hands it around: a tuple of channel values
(RGB or RGBA), modelled as a list of rationals. -/
abbrev Color := List ℚ

/-- Everything the canvas records when drawn into.  `GetDrawingText` serialises
the trace; we identify the artifact with the trace, so byte identity of output
corresponds to equality of traces. -/
inductive DrawEvent where
  /-- A background fill, produced by `ClearDrawing` or by `DrawMolecule` when
  the `clearBackground` option is on: it paints over the whole surface. -/
  | background
  /-- One `ContourAndDrawGaussians` pass: the Gaussian centres, heights and
  widths, the contour count, and the `ContourParams` fields the code sets
  (`fillGrid`, `gridResolution`, `extraGridPadding`, the installed colours). -/
  | contour (locs : List Point) (weights : List ℚ) (sigmas : List ℚ)
      (nContours : Nat) (fillGrid : Bool) (gridResolution : ℚ)
      (extraGridPadding : ℚ) (colours : Option (List Color))
  /-- One `DrawMolecule` pass: the molecule skeleton with its atom labels and
  atom notes. -/
  | skeleton (m : Mol)
  /-- One `DrawString` call. -/
  | text (s : String) (p : Point)
deriving DecidableEq, Repr

/-- The drawer object (`MolDraw2DSVG` / `MolDraw2DCairo`): its size and
format, the draw options the code touches, and the event trace drawn so far.
`clearBackground` defaults to true in RDKit. -/
structure Canvas where
  width : Nat
  height : Nat
  isSvg : Bool
  addAtomIndices : Bool
  atomNoteFontSize : Nat
  clearBackground : Bool
  events : List DrawEvent
deriving DecidableEq, Repr

/-- `draw2d.ClearDrawing()`: fills the surface with the background colour,
erasing every event drawn so far. -/
def Canvas.clearDrawing (c : Canvas) : Canvas :=
  { c with events := [DrawEvent.background] }

/-- `draw2d.DrawMolecule(mol)`: when the `clearBackground` option is set the
surface is first filled with the background (erasing prior content), then the
skeleton is drawn; otherwise the skeleton is drawn on top of what is there. -/
def Canvas.drawMolecule (c : Canvas) (m : Mol) : Canvas :=
  if c.clearBackground then
    { c with events := [DrawEvent.background, DrawEvent.skeleton m] }
  else
    { c with events := c.events ++ [DrawEvent.skeleton m] }

/-- `draw2d.DrawString(s, p)`. -/
def Canvas.drawString (c : Canvas) (s : String) (p : Point) : Canvas :=
  { c with events := c.events ++ [DrawEvent.text s p] }

/-- The errors the two functions can raise.  Python raises `ValueError` for
too few atoms and for an unknown colormap name, an index or type error when
subscripting a bad colour-scale argument, the RDKit length precondition
failure inside `ContourAndDrawGaussians`, and an attribute error downstream of
`MolFromSmiles` returning `None`. -/
inductive RenderError where
  | tooFewAtoms
  | unknownColormap (name : String)
  | badColorScale
  | contourLengthMismatch
  | parseFailure
deriving DecidableEq, Repr

/-- `Except.isOk`, restated locally so statements stay self-contained. -/
def exceptOk {ε α : Type} : Except ε α → Bool
  | Except.ok _ => true
  | Except.error _ => false

/-- The external collaborators of the module, supplied as capabilities:
`Chem.MolFromSmiles`, `rdDepictor.Compute2DCoords`, the Euclidean length of a
position difference (`(p - q).Length()` on RDKit `Point3D`), and the
matplotlib named-colormap registry consulted by `cm.get_cmap`.
`rdMolDraw2D.PrepareMolForDrawing(mol, addChiralHs=False)` only normalises
drawing attributes (kekulisation, wedging) that lie outside this abstraction;
on the modelled fields (atom count and symbols, bond endpoint indices,
conformer positions) it is the identity, so it is not a field here. -/
structure Externals where
  parse : String → Option Mol
  compute2D : Mol → List Point
  len : Point → Point → ℚ
  getCmap : String → Option (ℚ → Color)

/-- Python `round(x, 2)` on the exact rational value: scale by 100, round half
to even, scale back. -/
def roundHalfEven (q : ℚ) : ℤ :=
  let f := ⌊q⌋
  let frac := q - f
  if frac < 1/2 then f
  else if 1/2 < frac then f + 1
  else if f % 2 = 0 then f else f + 1

/-- Rounding to two decimals, as `round(sigma, 2)` does at line 47. -/
def round2 (q : ℚ) : ℚ := (roundHalfEven (q * 100) : ℚ) / 100

/-- The polymorphic `colorMap` argument of the field renderer: absent, a
matplotlib colormap object (callable on field fractions), a name to look up in
the registry, a subscriptable sequence of colours, or anything else. -/
inductive ColorMapArg where
  | noMap
  | cmObject (sample : ℚ → Color)
  | named (name : String)
  | indexable (cs : List Color)
  | nonIndexable

/-- Lines 66 to 77: resolve the `colorMap` argument into the three colours
installed via `ps.setColourMap`.  A colormap object or a registered name is
sampled at 0, 0.5 and 1; any other argument is subscripted at 0, 1 and 2,
which fails when fewer than three entries exist or the value is not
subscriptable.  (The `cm is None` guard at line 71 is dead: `cm` is imported
unconditionally at the top of the module.)  Returns `none` when no colormap
was supplied, in which case `setColourMap` is never called. -/
def resolveColorMap (ext : Externals) : ColorMapArg → Except RenderError (Option (List Color))
  | ColorMapArg.noMap => Except.ok none
  | ColorMapArg.cmObject sample =>
      Except.ok (some [sample 0, sample (1/2), sample 1])
  | ColorMapArg.named name =>
      match ext.getCmap name with
      | some sample => Except.ok (some [sample 0, sample (1/2), sample 1])
      | none => Except.error (RenderError.unknownColormap name)
  | ColorMapArg.indexable cs =>
      if 3 ≤ cs.length then
        Except.ok (some [cs.getD 0 [], cs.getD 1 [], cs.getD 2 []])
      else Except.error RenderError.badColorScale
  | ColorMapArg.nonIndexable => Except.error RenderError.badColorScale

/-- Lines 51 to 55: the loop accumulating `max_atom_pos_y`, with the
accumulator initialised to `0` and updated by `p.y if p.y > max_atom_pos_y
else max_atom_pos_y`. -/
def maxAtomPosY (ps : List Point) : ℚ :=
  ps.foldl (fun acc p => if acc < p.y then p.y else acc) 0

/-- The positions the loop of lines 51 to 55 collects as `locs`: the conformer
position of every atom index in order. -/
def molLocs (m : Mol) : List Point :=
  (List.range m.numAtoms).map m.getAtomPosition

/-- Lines 34 to 36: after `PrepareMolForDrawing` (identity on the modelled
fields), generate 2D coordinates when the molecule has no conformer. -/
def ensureConformer (ext : Externals) (m : Mol) : Mol :=
  if m.conformer.isSome then m else { m with conformer := some (ext.compute2D m) }

/-- Lines 37 to 47: the sigma the renderer uses — the supplied value, or, when
absent, `round(0.3 * length, 2)` of the difference of the first bond endpoint
positions, falling back to the first two atom positions when the molecule has
no bonds.  Applied to the conformer-completed molecule. -/
def sigmaValue (ext : Externals) (m : Mol) : Option ℚ → ℚ
  | some s => s
  | none =>
      round2 (if 0 < m.numBonds then
          3/10 * ext.len (m.getAtomPosition ((m.bonds.getD 0 ⟨0, 0⟩).beginAtomIdx))
              (m.getAtomPosition ((m.bonds.getD 0 ⟨0, 0⟩).endAtomIdx))
        else
          3/10 * ext.len (m.getAtomPosition 0) (m.getAtomPosition 1))

/-- `MoleculeDrawer._get_similarity_map_from_weights` (lines 13 to 83), with
`draw2d` always supplied, as at the single call site (the `draw2d is None`
path falls off the end of the function and is dead in this repository).  The
result pairs the drawer state after the call (the drawer object outlives an
exception) with either the raised error or the returned tuple: `none` stands
for the `(None, max_atom_pos_y)` return of the prediction branch, `some ()`
for `(draw2d, max_atom_pos_y)`.  The `alpha` keyword the caller passes lands
in `**kwargs` and is never read.  `ContourAndDrawGaussians` checks, as RDKit
preconditions, that centres, heights and widths have equal lengths. -/
def get_similarity_map_from_weights (ext : Externals) (mol : Mol) (weights : List ℚ)
    (colorMap : ColorMapArg) (sigma : Option ℚ) (contourLines : Nat)
    (draw2d : Canvas) (uncType : String) :
    Canvas × Except RenderError (Option Unit × ℚ) :=
  if mol.numAtoms < 2 then (draw2d, Except.error RenderError.tooFewAtoms)
  else
    let mol := ensureConformer ext mol
    let sigmaV : ℚ := sigmaValue ext mol sigma
    let sigmas := List.replicate mol.numAtoms sigmaV
    let locs := molLocs mol
    let maxY := maxAtomPosY locs
    if uncType = "pred" then
      (draw2d.drawMolecule mol, Except.ok (none, maxY))
    else
      let cleared := draw2d.clearDrawing
      match resolveColorMap ext colorMap with
      | Except.error e => (cleared, Except.error e)
      | Except.ok clrs =>
          if locs.length = weights.length ∧ locs.length = sigmas.length then
            let withContour :=
              { cleared with events := cleared.events ++
                  [DrawEvent.contour locs weights sigmas contourLines
                    true (3/100) (1/2) clrs] }
            let noClear := { withContour with clearBackground := false }
            (noClear.drawMolecule mol, Except.ok (some (), maxY))
          else (cleared, Except.error RenderError.contourLengthMismatch)

/-- Lines 91 and 92: the fixed diverging colormap built from the anchors
`(1, 0.2, 0.2)`, `(1, 1, 1)`, `(1, 0.2, 0.2)` by
`LinearSegmentedColormap.from_list`, modelled as piecewise-linear
interpolation with alpha 1 (the N = 100 quantisation is not observed by any
property verified here). -/
def selfDefineCmap (t : ℚ) : Color :=
  if t ≤ 1/2 then [1, 1/5 + 8/5 * t, 1/5 + 8/5 * t, 1]
  else [1, 1 - 8/5 * (t - 1/2), 1 - 8/5 * (t - 1/2), 1]

/-- Lines 102 to 104: the annotation loop `for atom, note in zip(mol.GetAtoms(),
atom_notes)`.  `zip` stops at the shorter sequence, so atoms beyond the note
list keep their properties untouched; each visited atom gets `atomNote` set to
`str(note)` and `atomLabel` forced to its element symbol. -/
def annotateAtom (a : Atom) (note : ℚ) : Atom :=
  { a with atomNote := some (toString note), atomLabel := some a.symbol }

/-- The molecule after the annotation loop of lines 102 to 104. -/
def setAtomNotes (m : Mol) (notes : List ℚ) : Mol :=
  { m with atoms :=
      (m.atoms.zip notes).map (fun an => annotateAtom an.1 an.2)
      ++ m.atoms.drop notes.length }

/-- Lines 96 to 101 and 86 to 88: the drawer built by
`draw_molecule_with_atom_notes` — 520 by 550, SVG or Cairo by the `svg` flag,
atom indices off, note font size 16, and the RDKit default of clearing the
background on `DrawMolecule` still in force. -/
def initialDrawer (svg : Bool) : Canvas :=
  { width := 520, height := 550, isSvg := svg, addAtomIndices := false,
    atomNoteFontSize := 16, clearBackground := true, events := [] }

/-- Python fixed-point formatting `{v:.2f}` on the exact rational value:
round half to even at two decimals and print with a two-digit fraction. -/
def fmt2 (q : ℚ) : String :=
  let n := roundHalfEven (q * 100)
  let sign := if n < 0 then "-" else ""
  let m := n.natAbs
  let cents := m % 100
  sign ++ toString (m / 100) ++ "." ++
    (if cents < 10 then "0" ++ toString cents else toString cents)

/-- `MoleculeDrawer.draw_molecule_with_atom_notes` (lines 85 to 121): parse
the SMILES (a parse failure surfaces as an error, since Python would fault on
the `None` molecule), truncate the notes to the heavy-atom count, build the
520 by 550 drawer with atom indices off, note font 16 and the default
background-clearing on, annotate the atoms, invoke the field renderer with the
fixed colormap, `contourLines = 2` and `sigma = 0.25`, scale the returned top
y by 1.7, draw the mode caption, and return the serialised drawing, which we
identify with the final canvas. -/
def draw_molecule_with_atom_notes (ext : Externals) (smiles : String) (molNote : ℚ)
    (atomNotes : List ℚ) (uncType : String) (svg : Bool) :
    Except RenderError Canvas :=
  match ext.parse smiles with
  | none => Except.error RenderError.parseFailure
  | some mol =>
    let notes := atomNotes.take mol.numHeavyAtoms
    let drawer : Canvas := initialDrawer svg
    let mol := setAtomNotes mol notes
    match get_similarity_map_from_weights ext mol notes
        (ColorMapArg.cmObject selfDefineCmap) (some (1/4)) 2 drawer uncType with
    | (_, Except.error e) => Except.error e
    | (drawer, Except.ok (_, maxY)) =>
      let capY := maxY * (17/10)
      let caption :=
        if uncType = "pred" then "Prediction: " ++ fmt2 molNote
        else if uncType = "ale" then "Aleatoric: " ++ fmt2 molNote
        else if uncType = "epi" then "Epistemic: " ++ fmt2 molNote
        else "Total: " ++ fmt2 molNote
      Except.ok (drawer.drawString caption ⟨0, capY⟩)

/-! ## Observables of a trace -/

/-- The strings drawn on a canvas by `DrawString`, in drawing order. -/
def textEvents (c : Canvas) : List String :=
  c.events.filterMap fun e =>
    match e with
    | DrawEvent.text s _ => some s
    | _ => none

/-- The widths (`sigmas`) recorded by the contour passes of a trace. -/
def contourSigmas (c : Canvas) : List (List ℚ) :=
  c.events.filterMap fun e =>
    match e with
    | DrawEvent.contour _ _ s _ _ _ _ _ => some s
    | _ => none

/-- How many filled-contour passes a trace holds. -/
def countContour (c : Canvas) : Nat :=
  c.events.countP fun e =>
    match e with
    | DrawEvent.contour _ _ _ _ _ _ _ _ => true
    | _ => false

/-- A trace that is exactly a background clear, then one filled-contour pass,
then one skeleton draw: the shape the non-prediction path produces. -/
def clearThenContourThenSkeleton : List DrawEvent → Bool
  | [DrawEvent.background, DrawEvent.contour _ _ _ _ _ _ _ _,
      DrawEvent.skeleton _] => true
  | _ => false

/-- The colour-scale arguments the resolution branch of lines 66 to 77
rejects: an unregistered name, a sequence with fewer than three entries, or a
value that is not subscriptable. -/
def badColorScaleArg (ext : Externals) : ColorMapArg → Bool
  | ColorMapArg.noMap => false
  | ColorMapArg.cmObject _ => false
  | ColorMapArg.named n => (ext.getCmap n).isNone
  | ColorMapArg.indexable cs => decide (cs.length < 3)
  | ColorMapArg.nonIndexable => true

/-- The specification notion of the top of a layout: the maximum y-coordinate
among the atom positions, as a plain maximum with no clamping. -/
def layoutMaxY : List Point → ℚ
  | [] => 0
  | p :: ps => ps.foldl (fun a q => max a q.y) p.y

/-! ## Concrete instances for witnesses and counterexamples -/

/-- A one-heavy-atom molecule (methane parses to a single carbon). -/
def molC : Mol := { atoms := [{ symbol := "C" }], bonds := [], conformer := none }

/-- Ethane: two carbons, one bond, a conformer placing them at distance 5. -/
def molCC : Mol :=
  { atoms := [{ symbol := "C" }, { symbol := "C" }],
    bonds := [⟨0, 1⟩],
    conformer := some [⟨0, 0⟩, ⟨3, 4⟩] }

/-- A two-atom molecule whose layout has only negative y-coordinates. -/
def molNeg : Mol :=
  { atoms := [{ symbol := "N" }, { symbol := "O" }],
    bonds := [⟨0, 1⟩],
    conformer := some [⟨0, -1⟩, ⟨0, -2⟩] }

/-- A fresh 520 by 550 drawer with the options the code configures. -/
def plainCanvas : Canvas := initialDrawer true

/-- A drawer that already holds content, to observe erasure. -/
def canvasWithContent : Canvas :=
  { plainCanvas with events := [DrawEvent.text "pre" ⟨0, 0⟩] }

/-- Concrete external collaborators for instantiating the theorems: a small
SMILES table, coordinate generation at the origin, a stand-in metric for the
length routine, and an empty named-colormap registry. -/
def demoExternals : Externals :=
  { parse := fun s =>
      if s = "C" then some molC
      else if s = "CC" then some molCC
      else if s = "NO" then some molNeg
      else none,
    compute2D := fun m => List.replicate m.numAtoms ⟨0, 0⟩,
    len := fun p q => |p.x - q.x| + |p.y - q.y|,
    getCmap := fun _ => none }

/-! ## Structural lemmas about the embedded operations -/

theorem setAtomNotes_numAtoms (m : Mol) (ns : List ℚ) :
    (setAtomNotes m ns).numAtoms = m.numAtoms := by
  simp only [setAtomNotes, Mol.numAtoms, List.length_append, List.length_map,
    List.length_zip, List.length_drop]
  omega

theorem setAtomNotes_bonds (m : Mol) (ns : List ℚ) :
    (setAtomNotes m ns).bonds = m.bonds := rfl

theorem setAtomNotes_conformer (m : Mol) (ns : List ℚ) :
    (setAtomNotes m ns).conformer = m.conformer := rfl

theorem ensureConformer_of_isSome (ext : Externals) (m : Mol)
    (h : m.conformer.isSome) : ensureConformer ext m = m := by
  simp [ensureConformer, h]

theorem ensureConformer_atoms (ext : Externals) (m : Mol) :
    (ensureConformer ext m).atoms = m.atoms := by
  unfold ensureConformer
  split <;> rfl

theorem ensureConformer_numAtoms (ext : Externals) (m : Mol) :
    (ensureConformer ext m).numAtoms = m.numAtoms := by
  simp [Mol.numAtoms, ensureConformer_atoms]

theorem molLocs_length (m : Mol) : (molLocs m).length = m.numAtoms := by
  simp [molLocs]

/-- Branch lemma: fewer than two atoms raise at once, leaving the drawer
untouched. -/
theorem gsm_too_few (ext : Externals) (mol : Mol) (ws : List ℚ)
    (cmArg : ColorMapArg) (sig : Option ℚ) (k : Nat) (c : Canvas) (mode : String)
    (h : mol.numAtoms < 2) :
    get_similarity_map_from_weights ext mol ws cmArg sig k c mode
      = (c, Except.error RenderError.tooFewAtoms) := by
  unfold get_similarity_map_from_weights
  rw [if_pos h]

/-- Branch lemma: the prediction branch draws the bare molecule (the default
background clearing is still on) and returns `None` with the clamped top y. -/
theorem gsm_pred (ext : Externals) (mol : Mol) (ws : List ℚ)
    (cmArg : ColorMapArg) (sig : Option ℚ) (k : Nat) (c : Canvas)
    (h : ¬ mol.numAtoms < 2) :
    get_similarity_map_from_weights ext mol ws cmArg sig k c "pred"
      = (c.drawMolecule (ensureConformer ext mol),
          Except.ok (none, maxAtomPosY (molLocs (ensureConformer ext mol)))) := by
  unfold get_similarity_map_from_weights
  rw [if_neg h]
  rfl

/-- Branch lemma: in a non-prediction mode with a resolvable colour scale and
matching lengths, the call succeeds and the final trace is exactly a
background clear, the contour pass, and the skeleton on top. -/
theorem gsm_nonpred_ok (ext : Externals) (mol : Mol) (ws : List ℚ)
    (cmArg : ColorMapArg) (sig : Option ℚ) (k : Nat) (c : Canvas) (mode : String)
    (clrs : Option (List Color))
    (h2 : ¬ mol.numAtoms < 2) (hmode : ¬ mode = "pred")
    (hcm : resolveColorMap ext cmArg = Except.ok clrs)
    (hlen : ws.length = mol.numAtoms) :
    get_similarity_map_from_weights ext mol ws cmArg sig k c mode
      = ({ c with
            clearBackground := false,
            events := [DrawEvent.background,
              DrawEvent.contour (molLocs (ensureConformer ext mol)) ws
                (List.replicate (ensureConformer ext mol).numAtoms
                  (sigmaValue ext (ensureConformer ext mol) sig))
                k true (3/100) (1/2) clrs,
              DrawEvent.skeleton (ensureConformer ext mol)] },
          Except.ok (some (), maxAtomPosY (molLocs (ensureConformer ext mol)))) := by
  unfold get_similarity_map_from_weights
  rw [if_neg h2, if_neg hmode, hcm]
  dsimp only
  rw [if_pos (by
    rw [molLocs_length, ensureConformer_numAtoms]
    exact ⟨hlen.symm, by simp⟩)]
  rfl

/-- Branch lemma: a colour-scale resolution failure raises after the canvas
has been cleared for the contour pass. -/
theorem gsm_cm_error (ext : Externals) (mol : Mol) (ws : List ℚ)
    (cmArg : ColorMapArg) (sig : Option ℚ) (k : Nat) (c : Canvas) (mode : String)
    (e : RenderError)
    (h2 : ¬ mol.numAtoms < 2) (hmode : ¬ mode = "pred")
    (hcm : resolveColorMap ext cmArg = Except.error e) :
    get_similarity_map_from_weights ext mol ws cmArg sig k c mode
      = ({ c with events := [DrawEvent.background] }, Except.error e) := by
  unfold get_similarity_map_from_weights
  rw [if_neg h2, if_neg hmode, hcm]
  rfl

/-- Branch lemma: a weight list whose length misses the atom count trips the
length precondition of the contour routine, after the canvas was cleared. -/
theorem gsm_length_mismatch (ext : Externals) (mol : Mol) (ws : List ℚ)
    (cmArg : ColorMapArg) (sig : Option ℚ) (k : Nat) (c : Canvas) (mode : String)
    (clrs : Option (List Color))
    (h2 : ¬ mol.numAtoms < 2) (hmode : ¬ mode = "pred")
    (hcm : resolveColorMap ext cmArg = Except.ok clrs)
    (hlen : ws.length ≠ mol.numAtoms) :
    get_similarity_map_from_weights ext mol ws cmArg sig k c mode
      = ({ c with events := [DrawEvent.background] },
          Except.error RenderError.contourLengthMismatch) := by
  unfold get_similarity_map_from_weights
  rw [if_neg h2, if_neg hmode, hcm]
  dsimp only
  rw [if_neg (by
    rw [molLocs_length, ensureConformer_numAtoms]
    intro h
    exact hlen h.1.symm)]
  rfl

theorem textEvents_drawString (c : Canvas) (s : String) (p : Point) :
    textEvents (c.drawString s p) = textEvents c ++ [s] := by
  simp [textEvents, Canvas.drawString]

theorem countContour_drawString (c : Canvas) (s : String) (p : Point) :
    countContour (c.drawString s p) = countContour c := by
  simp [countContour, Canvas.drawString]

/-- The field renderer never draws a string: if the incoming drawer holds no
text, neither does the drawer after the call, whatever branch was taken. -/
theorem gsm_textEvents (ext : Externals) (mol : Mol) (ws : List ℚ)
    (cmArg : ColorMapArg) (sig : Option ℚ) (k : Nat) (c : Canvas) (mode : String)
    (h : textEvents c = []) :
    textEvents (get_similarity_map_from_weights ext mol ws cmArg sig k c mode).1
      = [] := by
  by_cases h2 : mol.numAtoms < 2
  · rw [gsm_too_few ext mol ws cmArg sig k c mode h2]
    exact h
  · by_cases hmode : mode = "pred"
    · subst hmode
      rw [gsm_pred ext mol ws cmArg sig k c h2]
      unfold Canvas.drawMolecule
      split
      · rfl
      · simp only [textEvents, List.filterMap_append] at h ⊢
        simp [h]
    · cases hcmE : resolveColorMap ext cmArg with
      | error e =>
          rw [gsm_cm_error ext mol ws cmArg sig k c mode e h2 hmode hcmE]
          rfl
      | ok clrs =>
          by_cases hlen : ws.length = mol.numAtoms
          · rw [gsm_nonpred_ok ext mol ws cmArg sig k c mode clrs h2 hmode hcmE hlen]
            rfl
          · rw [gsm_length_mismatch ext mol ws cmArg sig k c mode clrs h2 hmode hcmE hlen]
            rfl

/-- Counting contour passes through the field renderer: none in prediction
mode, exactly one in any other mode, whenever the call succeeds (the incoming
drawer being contour-free). -/
theorem gsm_countContour_ok (ext : Externals) (mol : Mol) (ws : List ℚ)
    (cmArg : ColorMapArg) (sig : Option ℚ) (k : Nat) (c : Canvas) (mode : String)
    (o : Option Unit) (y : ℚ)
    (hc : countContour c = 0)
    (hres : (get_similarity_map_from_weights ext mol ws cmArg sig k c mode).2
        = Except.ok (o, y)) :
    countContour (get_similarity_map_from_weights ext mol ws cmArg sig k c mode).1
      = if mode = "pred" then 0 else 1 := by
  by_cases h2 : mol.numAtoms < 2
  · rw [gsm_too_few ext mol ws cmArg sig k c mode h2] at hres
    simp at hres
  · by_cases hmode : mode = "pred"
    · subst hmode
      rw [if_pos rfl, gsm_pred ext mol ws cmArg sig k c h2]
      unfold Canvas.drawMolecule
      split
      · rfl
      · simp only [countContour, List.countP_append] at hc ⊢
        simp [hc]
    · rw [if_neg hmode]
      cases hcmE : resolveColorMap ext cmArg with
      | error e =>
          rw [gsm_cm_error ext mol ws cmArg sig k c mode e h2 hmode hcmE] at hres
          simp at hres
      | ok clrs =>
          by_cases hlen : ws.length = mol.numAtoms
          · rw [gsm_nonpred_ok ext mol ws cmArg sig k c mode clrs h2 hmode hcmE hlen]
            rfl
          · rw [gsm_length_mismatch ext mol ws cmArg sig k c mode clrs h2 hmode hcmE hlen] at hres
            simp at hres

/-- Shape of every successful annotated render: the SMILES parsed, the field
renderer succeeded, and the artifact is its drawer with the mode caption
appended at `(0, top_y * 1.7)`. -/
theorem draw_ok_shape (ext : Externals) (smiles : String) (v : ℚ) (ws : List ℚ)
    (mode : String) (svg : Bool)
    (hok : exceptOk (draw_molecule_with_atom_notes ext smiles v ws mode svg)
        = true) :
    ∃ mol c2 o maxY,
      ext.parse smiles = some mol
      ∧ get_similarity_map_from_weights ext
            (setAtomNotes mol (ws.take mol.numHeavyAtoms))
            (ws.take mol.numHeavyAtoms)
            (ColorMapArg.cmObject selfDefineCmap) (some (1/4)) 2
            (initialDrawer svg) mode
          = (c2, Except.ok (o, maxY))
      ∧ draw_molecule_with_atom_notes ext smiles v ws mode svg
          = Except.ok (c2.drawString
              (if mode = "pred" then "Prediction: " ++ fmt2 v
               else if mode = "ale" then "Aleatoric: " ++ fmt2 v
               else if mode = "epi" then "Epistemic: " ++ fmt2 v
               else "Total: " ++ fmt2 v) ⟨0, maxY * (17/10)⟩) := by
  unfold draw_molecule_with_atom_notes at hok ⊢
  cases hps : ext.parse smiles with
  | none =>
      rw [hps] at hok
      simp [exceptOk] at hok
  | some mol =>
      rw [hps] at hok
      dsimp only at hok ⊢
      cases hg : get_similarity_map_from_weights ext
          (setAtomNotes mol (ws.take mol.numHeavyAtoms))
          (ws.take mol.numHeavyAtoms)
          (ColorMapArg.cmObject selfDefineCmap) (some (1/4)) 2
          (initialDrawer svg) mode with
      | mk c2 r =>
          rw [hg] at hok
          cases r with
          | error e => simp [exceptOk] at hok
          | ok p =>
              obtain ⟨o, maxY⟩ := p
              exact ⟨mol, c2, o, maxY, rfl, hg, rfl⟩

/-! ## C1 -/

/-- C1 (amended): a parseable structure with exactly one heavy atom fails with
the insufficient-atoms error in every mode, the prediction mode included: the
atom-count guard at lines 30 and 31 runs before the prediction branch at line
57 is reached. -/
theorem c1_one_atom_fails_every_mode (ext : Externals) (smiles : String)
    (mol : Mol) (v : ℚ) (ws : List ℚ) (mode : String) (svg : Bool)
    (hp : ext.parse smiles = some mol) (h1 : mol.numAtoms = 1) :
    draw_molecule_with_atom_notes ext smiles v ws mode svg
      = Except.error RenderError.tooFewAtoms := by
  have hlt : (setAtomNotes mol (ws.take mol.numHeavyAtoms)).numAtoms < 2 := by
    rw [setAtomNotes_numAtoms, h1]; omega
  simp only [draw_molecule_with_atom_notes, hp, get_similarity_map_from_weights,
    if_pos hlt]

/-- C1 counterexample: the claim asserts that a one-heavy-atom structure
succeeds in prediction mode; on the code it raises the too-few-atoms error
there as well. -/
theorem c1_counterexample :
    draw_molecule_with_atom_notes demoExternals "C" 1 [1] "pred" true
      = Except.error RenderError.tooFewAtoms := by rfl

/-- C1 witness: the amended theorem applied to a one-atom molecule in a
non-prediction mode. -/
theorem c1_witness :
    draw_molecule_with_atom_notes demoExternals "C" 1 [1] "ale" true
      = Except.error RenderError.tooFewAtoms :=
  c1_one_atom_fails_every_mode demoExternals "C" molC 1 [1] "ale" true
    (by decide) (by decide)

/-! ## C2 -/

/-- C2 (amended): in every non-prediction mode, supplying fewer weights than
heavy atoms raises an error from the length precondition of the contour
routine at line 79 (positions versus weights), not an out-of-bounds condition
during the per-atom annotation step: the annotation loop zips and truncates
silently.  In prediction mode the same call raises nothing. -/
theorem c2_short_weights_error (ext : Externals) (smiles : String) (mol : Mol)
    (v : ℚ) (ws : List ℚ) (mode : String) (svg : Bool)
    (hp : ext.parse smiles = some mol)
    (hn : 2 ≤ mol.numAtoms)
    (hw : ws.length < mol.numHeavyAtoms)
    (hmode : mode ≠ "pred") :
    draw_molecule_with_atom_notes ext smiles v ws mode svg
      = Except.error RenderError.contourLengthMismatch := by
  have htake : ws.take mol.numHeavyAtoms = ws := List.take_of_length_le hw.le
  have hwa : ws.length < mol.numAtoms := hw
  have h2 : ¬ (setAtomNotes mol ws).numAtoms < 2 := by
    rw [setAtomNotes_numAtoms]; omega
  have hne : ws.length ≠ (setAtomNotes mol ws).numAtoms := by
    rw [setAtomNotes_numAtoms]; omega
  simp only [draw_molecule_with_atom_notes, hp, htake]
  rw [gsm_length_mismatch ext (setAtomNotes mol ws) ws
    (ColorMapArg.cmObject selfDefineCmap) (some (1/4)) 2 _ mode
    (some [selfDefineCmap 0, selfDefineCmap (1/2), selfDefineCmap 1])
    h2 hmode rfl hne]

/-- C2 counterexample: the claim demands an error for every short weight list;
in prediction mode the render with one weight for two heavy atoms completes
without error. -/
theorem c2_counterexample :
    exceptOk (draw_molecule_with_atom_notes demoExternals "CC" 1 [5] "pred" true)
      = true := by rfl

/-- C2 witness: the amended theorem at a two-atom molecule with one weight in
a non-prediction mode. -/
theorem c2_witness :
    draw_molecule_with_atom_notes demoExternals "CC" 1 [5] "ale" true
      = Except.error RenderError.contourLengthMismatch :=
  c2_short_weights_error demoExternals "CC" molCC 1 [5] "ale" true
    (by decide) (by decide) (by decide) (by decide)

/-! ## C3 -/

/-- C3: for a structure with at least two atoms and a 2D conformer, when sigma
is not supplied the renderer uses, for every atom, the width
`round(0.3 * distance(p1, p2), 2)` where `p1, p2` are the endpoint positions
of the first bond when a bond exists, and the first two atom positions
otherwise — observable as the widths recorded by the contour pass. -/
theorem c3_sigma_derivation (ext : Externals) (mol : Mol) (ws : List ℚ)
    (cmArg : ColorMapArg) (k : Nat) (c : Canvas) (mode : String)
    (clrs : Option (List Color))
    (hconf : mol.conformer.isSome)
    (hn : 2 ≤ mol.numAtoms)
    (hw : ws.length = mol.numAtoms)
    (hmode : mode ≠ "pred")
    (hcm : resolveColorMap ext cmArg = Except.ok clrs) :
    contourSigmas (get_similarity_map_from_weights ext mol ws cmArg none k c mode).1
      = [List.replicate mol.numAtoms
          (round2 (if 0 < mol.numBonds then
              3/10 * ext.len (mol.getAtomPosition ((mol.bonds.getD 0 ⟨0, 0⟩).beginAtomIdx))
                  (mol.getAtomPosition ((mol.bonds.getD 0 ⟨0, 0⟩).endAtomIdx))
            else
              3/10 * ext.len (mol.getAtomPosition 0) (mol.getAtomPosition 1)))] := by
  have hEC : ensureConformer ext mol = mol := ensureConformer_of_isSome ext mol hconf
  rw [gsm_nonpred_ok ext mol ws cmArg none k c mode clrs (by omega) hmode hcm hw]
  rw [hEC]
  simp [contourSigmas, sigmaValue]

/-- C3 witness: the derivation at a bonded two-atom molecule with a concrete
layout. -/
theorem c3_witness :
    contourSigmas (get_similarity_map_from_weights demoExternals molCC [1, 2]
        ColorMapArg.noMap none 2 plainCanvas "tot").1
      = [List.replicate molCC.numAtoms
          (round2 (if 0 < molCC.numBonds then
              3/10 * demoExternals.len
                  (molCC.getAtomPosition ((molCC.bonds.getD 0 ⟨0, 0⟩).beginAtomIdx))
                  (molCC.getAtomPosition ((molCC.bonds.getD 0 ⟨0, 0⟩).endAtomIdx))
            else
              3/10 * demoExternals.len (molCC.getAtomPosition 0)
                  (molCC.getAtomPosition 1)))] :=
  c3_sigma_derivation demoExternals molCC [1, 2] ColorMapArg.noMap 2 plainCanvas
    "tot" none (by rfl) (by decide) (by decide) (by decide) (by rfl)

/-! ## C4 -/

theorem if_lt_eq_max (a b : ℚ) : (if a < b then b else a) = max a b := by
  rcases le_or_lt b a with h | h
  · rw [if_neg (not_lt.mpr h), max_eq_left h]
  · rw [if_pos h, max_eq_right h.le]

theorem foldl_max_init (l : List Point) (a b : ℚ) :
    l.foldl (fun x q => max x q.y) (max a b)
      = max a (l.foldl (fun x q => max x q.y) b) := by
  induction l generalizing b with
  | nil => rfl
  | cons p ps ih =>
      simp only [List.foldl_cons]
      rw [max_assoc, ih]

/-- The loop of lines 51 to 55 computes the maximum of the y-coordinates
clamped from below by its initial accumulator 0. -/
theorem maxAtomPosY_eq_clamp (ps : List Point) :
    maxAtomPosY ps = max 0 (layoutMaxY ps) := by
  have hfun : (fun (acc : ℚ) (p : Point) => if acc < p.y then p.y else acc)
      = fun acc p => max acc p.y := by
    funext acc p
    exact if_lt_eq_max acc p.y
  cases ps with
  | nil => simp [maxAtomPosY, layoutMaxY]
  | cons p ps =>
      simp only [maxAtomPosY, layoutMaxY, hfun, List.foldl_cons]
      exact foldl_max_init ps 0 p.y

/-- C4 counterexample: on a two-atom layout with y-coordinates -1 and -2 the
prediction-mode render returns top_y = 0, while the maximum y-coordinate among
the atom positions is -1. -/
theorem c4_counterexample :
    (get_similarity_map_from_weights demoExternals molNeg [1, 1] ColorMapArg.noMap
        (some 1) 2 plainCanvas "pred").2 = Except.ok (none, 0)
    ∧ layoutMaxY (molLocs molNeg) = -1
    ∧ (0 : ℚ) ≠ -1 := by
  refine ⟨by rfl, by decide, by norm_num⟩

/-- C4 (amended): the returned top_y equals the maximum of 0 and the maximum
y-coordinate among the atom positions (the accumulator of the loop starts at
0), in every mode; for layouts whose y-coordinates are all negative it is
therefore 0 rather than the true maximum. -/
theorem c4_top_y_clamped (ext : Externals) (mol : Mol) (ws : List ℚ)
    (cmArg : ColorMapArg) (sig : Option ℚ) (k : Nat) (c : Canvas) (mode : String)
    (o : Option Unit) (y : ℚ)
    (hres : (get_similarity_map_from_weights ext mol ws cmArg sig k c mode).2
        = Except.ok (o, y)) :
    y = max 0 (layoutMaxY (molLocs (ensureConformer ext mol))) := by
  rw [← maxAtomPosY_eq_clamp]
  by_cases h2 : mol.numAtoms < 2
  · rw [gsm_too_few ext mol ws cmArg sig k c mode h2] at hres
    simp at hres
  · by_cases hmode : mode = "pred"
    · subst hmode
      rw [gsm_pred ext mol ws cmArg sig k c h2] at hres
      injection hres with h
      injection h with h1 h2
      exact h2.symm
    · cases hcmE : resolveColorMap ext cmArg with
      | error e =>
          rw [gsm_cm_error ext mol ws cmArg sig k c mode e h2 hmode hcmE] at hres
          simp at hres
      | ok clrs =>
          by_cases hlen : ws.length = mol.numAtoms
          · rw [gsm_nonpred_ok ext mol ws cmArg sig k c mode clrs h2 hmode hcmE hlen] at hres
            injection hres with h
            injection h with h1 h2
            exact h2.symm
          · rw [gsm_length_mismatch ext mol ws cmArg sig k c mode clrs h2 hmode hcmE hlen] at hres
            simp at hres

/-- C4 witness: the amended theorem at the concrete two-atom layout with top
atom at y = 4. -/
theorem c4_witness :
    (4 : ℚ) = max 0 (layoutMaxY (molLocs (ensureConformer demoExternals molCC))) :=
  c4_top_y_clamped demoExternals molCC [1, 2] ColorMapArg.noMap (some 1) 2
    plainCanvas "pred" none 4 (by rfl)

/-! ## C5 -/

/-- C5 counterexample: the claim asserts the contour bands are painted without
erasing content already on the canvas; the code calls `ClearDrawing` first, so
pre-existing content is gone from the final trace. -/
theorem c5_counterexample :
    DrawEvent.text "pre" ⟨0, 0⟩ ∈ canvasWithContent.events
    ∧ DrawEvent.text "pre" ⟨0, 0⟩ ∉
        (get_similarity_map_from_weights demoExternals molCC [1, 2]
          ColorMapArg.noMap (some 1) 2 canvasWithContent "tot").1.events := by
  exact ⟨by decide, by decide⟩

/-- C5 (amended): in every successful non-prediction render the canvas is
first cleared (erasing whatever content it held), then the filled contour
bands are painted, then the molecule skeleton is drawn after them, with
background clearing disabled so the skeleton lies on top of the colour
field: the final trace is exactly clear, contour, skeleton. -/
theorem c5_draw_order (ext : Externals) (mol : Mol) (ws : List ℚ)
    (cmArg : ColorMapArg) (sig : Option ℚ) (k : Nat) (c : Canvas) (mode : String)
    (o : Option Unit) (y : ℚ)
    (hmode : mode ≠ "pred")
    (hres : (get_similarity_map_from_weights ext mol ws cmArg sig k c mode).2
        = Except.ok (o, y)) :
    clearThenContourThenSkeleton
      (get_similarity_map_from_weights ext mol ws cmArg sig k c mode).1.events
      = true := by
  by_cases h2 : mol.numAtoms < 2
  · rw [gsm_too_few ext mol ws cmArg sig k c mode h2] at hres
    simp at hres
  · cases hcmE : resolveColorMap ext cmArg with
    | error e =>
        rw [gsm_cm_error ext mol ws cmArg sig k c mode e h2 hmode hcmE] at hres
        simp at hres
    | ok clrs =>
        by_cases hlen : ws.length = mol.numAtoms
        · rw [gsm_nonpred_ok ext mol ws cmArg sig k c mode clrs h2 hmode hcmE hlen]
          rfl
        · rw [gsm_length_mismatch ext mol ws cmArg sig k c mode clrs h2 hmode hcmE hlen] at hres
          simp at hres

/-- C5 witness: the amended trace shape at a concrete non-prediction render. -/
theorem c5_witness :
    clearThenContourThenSkeleton
      (get_similarity_map_from_weights demoExternals molCC [1, 2]
        ColorMapArg.noMap (some 1) 2 plainCanvas "tot").1.events = true :=
  c5_draw_order demoExternals molCC [1, 2] ColorMapArg.noMap (some 1) 2
    plainCanvas "tot" (some ()) 4 (by decide) (by rfl)

/-! ## C6 -/

/-- C6: every successful render draws exactly one caption string, the
mode-specific prefix followed by the summary value formatted to two decimals:
Prediction for the prediction tag, Aleatoric and Epistemic for theirs, and
Total for the total-uncertainty mode (the fallback branch). -/
theorem c6_caption (ext : Externals) (smiles : String) (v : ℚ) (ws : List ℚ)
    (mode : String) (svg : Bool)
    (hok : exceptOk (draw_molecule_with_atom_notes ext smiles v ws mode svg)
        = true) :
    (draw_molecule_with_atom_notes ext smiles v ws mode svg).map textEvents
      = Except.ok
          [(if mode = "pred" then "Prediction: "
            else if mode = "ale" then "Aleatoric: "
            else if mode = "epi" then "Epistemic: "
            else "Total: ") ++ fmt2 v] := by
  obtain ⟨mol, c2, o, maxY, hps, hg, hout⟩ :=
    draw_ok_shape ext smiles v ws mode svg hok
  have htxt : textEvents c2 = [] := by
    have h0 := gsm_textEvents ext (setAtomNotes mol (ws.take mol.numHeavyAtoms))
      (ws.take mol.numHeavyAtoms) (ColorMapArg.cmObject selfDefineCmap)
      (some (1/4)) 2 (initialDrawer svg) mode rfl
    rw [hg] at h0
    exact h0
  rw [hout]
  simp only [Except.map, textEvents_drawString, htxt, List.nil_append]
  split_ifs <;> rfl

/-- C6 witness: the epistemic caption at a concrete successful render. -/
theorem c6_witness :
    (draw_molecule_with_atom_notes demoExternals "CC" (1/2) [1, 2] "epi" true).map
        textEvents
      = Except.ok
          [(if "epi" = "pred" then "Prediction: "
            else if "epi" = "ale" then "Aleatoric: "
            else if "epi" = "epi" then "Epistemic: "
            else "Total: ") ++ fmt2 (1/2)] :=
  c6_caption demoExternals "CC" (1/2) [1, 2] "epi" true (by rfl)

/-! ## C7 -/

theorem numHeavyAtoms_eq_numAtoms (m : Mol) : m.numHeavyAtoms = m.numAtoms := rfl

/-- C7: a weight sequence longer than the heavy-atom count is truncated
silently before annotation and field rendering: the call behaves identically
to the call given only the first N weights, and (the structure being valid,
with at least two heavy atoms) it does not error. -/
theorem c7_truncation (ext : Externals) (smiles : String) (mol : Mol) (v : ℚ)
    (ws : List ℚ) (mode : String) (svg : Bool)
    (hp : ext.parse smiles = some mol)
    (hn : 2 ≤ mol.numHeavyAtoms)
    (hlong : mol.numHeavyAtoms < ws.length) :
    draw_molecule_with_atom_notes ext smiles v ws mode svg
      = draw_molecule_with_atom_notes ext smiles v (ws.take mol.numHeavyAtoms)
          mode svg
    ∧ exceptOk (draw_molecule_with_atom_notes ext smiles v ws mode svg)
        = true := by
  have hna : 2 ≤ mol.numAtoms := by rw [← numHeavyAtoms_eq_numAtoms]; exact hn
  have heq : draw_molecule_with_atom_notes ext smiles v ws mode svg
      = draw_molecule_with_atom_notes ext smiles v (ws.take mol.numHeavyAtoms)
          mode svg := by
    unfold draw_molecule_with_atom_notes
    rw [hp]
    dsimp only
    rw [List.take_take, min_self]
  refine ⟨heq, ?_⟩
  have hlen : (ws.take mol.numHeavyAtoms).length
      = (setAtomNotes mol (ws.take mol.numHeavyAtoms)).numAtoms := by
    rw [setAtomNotes_numAtoms, List.length_take, ← numHeavyAtoms_eq_numAtoms]
    omega
  have h2 : ¬ (setAtomNotes mol (ws.take mol.numHeavyAtoms)).numAtoms < 2 := by
    rw [setAtomNotes_numAtoms]
    omega
  unfold draw_molecule_with_atom_notes
  rw [hp]
  dsimp only
  by_cases hmode : mode = "pred"
  · subst hmode
    rw [gsm_pred ext (setAtomNotes mol (ws.take mol.numHeavyAtoms))
      (ws.take mol.numHeavyAtoms) (ColorMapArg.cmObject selfDefineCmap)
      (some (1/4)) 2 (initialDrawer svg) h2]
    rfl
  · rw [gsm_nonpred_ok ext (setAtomNotes mol (ws.take mol.numHeavyAtoms))
      (ws.take mol.numHeavyAtoms) (ColorMapArg.cmObject selfDefineCmap)
      (some (1/4)) 2 (initialDrawer svg) mode
      (some [selfDefineCmap 0, selfDefineCmap (1/2), selfDefineCmap 1])
      h2 hmode rfl hlen]
    rfl

/-- C7 witness: a three-weight list on a two-atom molecule renders without
error and exactly as the two-weight truncation does. -/
theorem c7_witness :
    (draw_molecule_with_atom_notes demoExternals "CC" 1 [1, 2, 3] "tot" true
      = draw_molecule_with_atom_notes demoExternals "CC" 1
          (List.take molCC.numHeavyAtoms [1, 2, 3]) "tot" true)
    ∧ exceptOk (draw_molecule_with_atom_notes demoExternals "CC" 1 [1, 2, 3]
        "tot" true) = true :=
  c7_truncation demoExternals "CC" molCC 1 [1, 2, 3] "tot" true
    (by decide) (by decide) (by decide)

/-! ## C8 -/

/-- C8 counterexample: a four-colour list is neither a named scale, nor a
colormap object, nor a 3-colour list, yet the field renderer accepts it
(subscripting its first three entries) instead of failing. -/
theorem c8_counterexample :
    (get_similarity_map_from_weights demoExternals molCC [1, 2]
        (ColorMapArg.indexable [[0], [1], [2], [3]]) (some 1) 2 plainCanvas
        "tot").2
      = Except.ok (some (), 4) := by rfl

/-- C8 (amended): a colour-scale argument that is neither a colormap object,
nor the name of a registered scale, nor subscriptable with at least three
colours makes the field renderer fail during colour resolution, but only
after the canvas has been cleared for the contour pass — not before any
drawing has touched the canvas; subscriptable arguments with more than three
colours are accepted, using their first three. -/
theorem c8_bad_scale (ext : Externals) (mol : Mol) (ws : List ℚ)
    (cmArg : ColorMapArg) (sig : Option ℚ) (k : Nat) (c : Canvas) (mode : String)
    (hn : 2 ≤ mol.numAtoms) (hmode : mode ≠ "pred")
    (hbad : badColorScaleArg ext cmArg = true) :
    exceptOk (get_similarity_map_from_weights ext mol ws cmArg sig k c mode).2
        = false
    ∧ (get_similarity_map_from_weights ext mol ws cmArg sig k c mode).1.events
        = [DrawEvent.background] := by
  have herr : ∃ e, resolveColorMap ext cmArg = Except.error e := by
    cases cmArg with
    | noMap => simp [badColorScaleArg] at hbad
    | cmObject s => simp [badColorScaleArg] at hbad
    | named nm =>
        cases hgc : ext.getCmap nm with
        | none =>
            exact ⟨RenderError.unknownColormap nm, by simp [resolveColorMap, hgc]⟩
        | some s => simp [badColorScaleArg, hgc] at hbad
    | indexable cs =>
        refine ⟨RenderError.badColorScale, ?_⟩
        simp only [badColorScaleArg, decide_eq_true_eq] at hbad
        simp [resolveColorMap, if_neg (by omega : ¬ 3 ≤ cs.length)]
    | nonIndexable => exact ⟨RenderError.badColorScale, rfl⟩
  obtain ⟨e, he⟩ := herr
  rw [gsm_cm_error ext mol ws cmArg sig k c mode e (by omega) hmode he]
  exact ⟨rfl, rfl⟩

/-- C8 witness: the error path at a concrete non-subscriptable argument. -/
theorem c8_witness :
    exceptOk (get_similarity_map_from_weights demoExternals molCC [1, 2]
        ColorMapArg.nonIndexable (some 1) 2 plainCanvas "tot").2 = false
    ∧ (get_similarity_map_from_weights demoExternals molCC [1, 2]
        ColorMapArg.nonIndexable (some 1) 2 plainCanvas "tot").1.events
        = [DrawEvent.background] :=
  c8_bad_scale demoExternals molCC [1, 2] ColorMapArg.nonIndexable (some 1) 2
    plainCanvas "tot" (by decide) (by decide) (by rfl)

/-! ## C10 -/

/-- C10: the mode argument is never validated: a successful render contains a
contour pass exactly when the mode string differs from the exact prediction
tag, and every string other than the prediction, aleatoric and epistemic tags
— documented or not — draws the Total caption. -/
theorem c10_mode_not_validated (ext : Externals) (smiles : String) (v : ℚ)
    (ws : List ℚ) (mode : String) (svg : Bool)
    (hok : exceptOk (draw_molecule_with_atom_notes ext smiles v ws mode svg)
        = true) :
    (draw_molecule_with_atom_notes ext smiles v ws mode svg).map countContour
      = Except.ok (if mode = "pred" then 0 else 1)
    ∧ (mode ≠ "pred" → mode ≠ "ale" → mode ≠ "epi" →
        (draw_molecule_with_atom_notes ext smiles v ws mode svg).map textEvents
          = Except.ok ["Total: " ++ fmt2 v]) := by
  obtain ⟨mol, c2, o, maxY, hps, hg, hout⟩ :=
    draw_ok_shape ext smiles v ws mode svg hok
  constructor
  · have hcc : countContour c2 = if mode = "pred" then 0 else 1 := by
      have h0 := gsm_countContour_ok ext
        (setAtomNotes mol (ws.take mol.numHeavyAtoms))
        (ws.take mol.numHeavyAtoms) (ColorMapArg.cmObject selfDefineCmap)
        (some (1/4)) 2 (initialDrawer svg) mode o maxY rfl (by rw [hg])
      rw [hg] at h0
      exact h0
    rw [hout]
    simp only [Except.map, countContour_drawString, hcc]
  · intro h1 h2 h3
    have htxt : textEvents c2 = [] := by
      have h0 := gsm_textEvents ext (setAtomNotes mol (ws.take mol.numHeavyAtoms))
        (ws.take mol.numHeavyAtoms) (ColorMapArg.cmObject selfDefineCmap)
        (some (1/4)) 2 (initialDrawer svg) mode rfl
      rw [hg] at h0
      exact h0
    rw [hout]
    simp only [Except.map, textEvents_drawString, htxt, List.nil_append,
      if_neg h1, if_neg h2, if_neg h3]

/-- C10 witness: an undocumented mode string follows the field path and draws
the Total caption. -/
theorem c10_witness :
    (draw_molecule_with_atom_notes demoExternals "CC" 1 [1, 2] "bogus" true).map
        countContour
      = Except.ok (if "bogus" = "pred" then 0 else 1)
    ∧ ("bogus" ≠ "pred" → "bogus" ≠ "ale" → "bogus" ≠ "epi" →
        (draw_molecule_with_atom_notes demoExternals "CC" 1 [1, 2] "bogus"
            true).map textEvents
          = Except.ok ["Total: " ++ fmt2 1]) :=
  c10_mode_not_validated demoExternals "CC" 1 [1, 2] "bogus" true (by rfl)

/-! ## C9 -/

/-- C9: rendering is deterministic — two calls with identical structure
notation, summary value, weight sequence, mode and output format produce the
same artifact (the embedding identifies byte-identical serialised output with
equality of the final canvas trace, of which the serialisation is a
function). -/
theorem c9_deterministic (ext : Externals) (s1 s2 : String) (v1 v2 : ℚ)
    (w1 w2 : List ℚ) (m1 m2 : String) (b1 b2 : Bool)
    (hs : s1 = s2) (hv : v1 = v2) (hw : w1 = w2) (hm : m1 = m2)
    (hb : b1 = b2) :
    draw_molecule_with_atom_notes ext s1 v1 w1 m1 b1
      = draw_molecule_with_atom_notes ext s2 v2 w2 m2 b2 := by
  subst hs; subst hv; subst hw; subst hm; subst hb; rfl

/-- C9 witness: determinism at a concrete input. -/
theorem c9_witness :
    draw_molecule_with_atom_notes demoExternals "CC" 1 [1, 2] "tot" true
      = draw_molecule_with_atom_notes demoExternals "CC" 1 [1, 2] "tot" true :=
  c9_deterministic demoExternals "CC" "CC" 1 1 [1, 2] [1, 2] "tot" "tot"
    true true rfl rfl rfl rfl rfl

